import Mathlib

/-!
Shallow embedding of the Soter pooled-custody aid-escrow contract
(src/app/onchain/contracts/aid_escrow/src/lib.rs).

Addresses and token identifiers are modelled as natural numbers; amounts
(Rust i128) as unbounded integers, timestamps (u64) as naturals — none of
the verified claims depends on wrap-around behaviour.  Contract storage
(instance storage for admin and the locked map, persistent storage for
packages) becomes a `State` record; the external token contract becomes an
explicit balance table `TokenId → Addr → Int` mutated by `transfer` and
read by `balance`.  Authorization (`require_auth`) is modelled by a
per-invocation predicate `auths : Addr → Bool`; an auth failure aborts the
call with no state change (in the source it traps before any write on
every path).  Each public entry point is a function from the pre-state
(plus the ledger timestamp where the source reads it) to a pair of the
`Result` and the post-state, executing the source's writes in order; the
source never writes before an error return except claim's deliberate
auto-expiry persistence, which the embedding reproduces.
-/

namespace Soter

abbrev Addr := Nat
abbrev TokenId := Nat

/-- `PackageStatus` from the source: Created / Claimed / Expired /
Cancelled / Refunded. -/
inductive PackageStatus
  | Created
  | Claimed
  | Expired
  | Cancelled
  | Refunded
deriving DecidableEq, Repr

/-- The `Package` record from the source (metadata is a symbol-to-string
map, only ever created empty). -/
structure Package where
  id : Nat
  recipient : Addr
  amount : Int
  token : TokenId
  status : PackageStatus
  created_at : Nat
  expires_at : Nat
  metadata : List (String × String)
deriving DecidableEq, Repr

/-- The `Error` enumeration from the source. -/
inductive Error
  | NotInitialized
  | AlreadyInitialized
  | NotAuthorized
  | InvalidAmount
  | PackageNotFound
  | PackageNotActive
  | PackageExpired
  | PackageNotExpired
  | InsufficientFunds
  | PackageIdExists
  | InvalidState
deriving DecidableEq, Repr

/-- The contract's own address (`env.current_contract_address()`). -/
def contractAddr : Addr := 0

/-- Contract storage plus the external token balances the contract reads
and moves.  `locked` is the `Map<Address, i128>` under KEY_TOTAL_LOCKED,
with the source's `unwrap_or(0)` default built in; `packages` is the
persistent store keyed by `("pkg", id)`. -/
structure State where
  admin : Option Addr
  locked : TokenId → Int
  packages : Nat → Option Package
  balance : TokenId → Addr → Int

/-- Semantics of `token::Client::transfer`: move `amt` of token `tok`
from `src` to `dst`. -/
def transfer (bal : TokenId → Addr → Int) (tok : TokenId) (src dst : Addr)
    (amt : Int) : TokenId → Addr → Int :=
  fun t a =>
    bal t a + (if t = tok ∧ a = dst then amt else 0)
            - (if t = tok ∧ a = src then amt else 0)

/-- `get_admin`: instance-storage read, `NotInitialized` when unset. -/
def get_admin (s : State) : Except Error Addr :=
  match s.admin with
  | some a => Except.ok a
  | none => Except.error Error.NotInitialized

/-- `init(admin)`: set the administrator once. -/
def init (s : State) (admin : Addr) : Except Error Unit × State :=
  match s.admin with
  | some _ => (Except.error Error.AlreadyInitialized, s)
  | none => (Except.ok (), { s with admin := some admin })

/-- `fund(token, from, amount)`: pool deposit, transfers from the donor
into the contract's custodial balance. -/
def fund (s : State) (auths : Addr → Bool) (tok : TokenId) (source : Addr)
    (amount : Int) : Except Error Unit × State :=
  if amount ≤ 0 then (Except.error Error.InvalidAmount, s)
  else if auths source = false then (Except.error Error.NotAuthorized, s)
  else (Except.ok (),
    { s with balance := transfer s.balance tok source contractAddr amount })

/-- `create_package(id, recipient, amount, token, expires_at)`: admin-only
admission control; checks id uniqueness and solvency, then locks the
amount and inserts the package with status Created. -/
def create_package (s : State) (auths : Addr → Bool) (now : Nat) (id : Nat)
    (recipient : Addr) (amount : Int) (tok : TokenId) (expires_at : Nat) :
    Except Error Nat × State :=
  match get_admin s with
  | Except.error e => (Except.error e, s)
  | Except.ok admin =>
    if auths admin = false then (Except.error Error.NotAuthorized, s)
    else if amount ≤ 0 then (Except.error Error.InvalidAmount, s)
    else if (s.packages id).isSome then (Except.error Error.PackageIdExists, s)
    else
      let contract_balance := s.balance tok contractAddr
      let current_locked := s.locked tok
      if contract_balance < current_locked + amount then
        (Except.error Error.InsufficientFunds, s)
      else
        let package : Package :=
          { id := id, recipient := recipient, amount := amount, token := tok,
            status := PackageStatus.Created, created_at := now,
            expires_at := expires_at, metadata := [] }
        (Except.ok id,
          { s with
            locked := fun t =>
              if t = tok then current_locked + amount else s.locked t,
            packages := fun k =>
              if k = id then some package else s.packages k })

/-- `decrement_locked`: the saturating helper — subtracts when the current
total strictly exceeds the amount, otherwise clamps to zero. -/
def decrement_locked (s : State) (tok : TokenId) (amount : Int) : State :=
  let current := s.locked tok
  let new_locked := if current > amount then current - amount else 0
  { s with locked := fun t => if t = tok then new_locked else s.locked t }

/-- `claim(id)`: recipient-initiated settlement, with the lazy auto-expiry
that persists the Expired status (but does not touch `locked`) before
returning `PackageExpired`. -/
def claim (s : State) (auths : Addr → Bool) (now : Nat) (id : Nat) :
    Except Error Unit × State :=
  match s.packages id with
  | none => (Except.error Error.PackageNotFound, s)
  | some package =>
    if package.status ≠ PackageStatus.Created then
      (Except.error Error.PackageNotActive, s)
    else if 0 < package.expires_at ∧ package.expires_at < now then
      let expired : Package := { package with status := PackageStatus.Expired }
      (Except.error Error.PackageExpired,
        { s with packages := fun k =>
            if k = id then some expired else s.packages k })
    else if auths package.recipient = false then
      (Except.error Error.NotAuthorized, s)
    else
      let claimed : Package := { package with status := PackageStatus.Claimed }
      let s1 : State :=
        { s with packages := fun k =>
            if k = id then some claimed else s.packages k }
      let s2 := decrement_locked s1 package.token package.amount
      let bal3 := transfer s2.balance package.token contractAddr
        package.recipient package.amount
      (Except.ok (), { s2 with balance := bal3 })

/-- `disburse(id)`: admin-forced payout to the recipient; requires status
Created and performs no expiry check (the source never reads the clock
here). -/
def disburse (s : State) (auths : Addr → Bool) (id : Nat) :
    Except Error Unit × State :=
  match get_admin s with
  | Except.error e => (Except.error e, s)
  | Except.ok admin =>
    if auths admin = false then (Except.error Error.NotAuthorized, s)
    else
      match s.packages id with
      | none => (Except.error Error.PackageNotFound, s)
      | some package =>
        if package.status ≠ PackageStatus.Created then
          (Except.error Error.PackageNotActive, s)
        else
          let claimed : Package :=
            { package with status := PackageStatus.Claimed }
          let s1 : State :=
            { s with packages := fun k =>
                if k = id then some claimed else s.packages k }
          let s2 := decrement_locked s1 package.token package.amount
          let bal3 := transfer s2.balance package.token contractAddr
            package.recipient package.amount
          (Except.ok (), { s2 with balance := bal3 })

/-- `revoke(id)`: admin cancels a Created package; unlocks the funds but
performs no transfer. -/
def revoke (s : State) (auths : Addr → Bool) (id : Nat) :
    Except Error Unit × State :=
  match get_admin s with
  | Except.error e => (Except.error e, s)
  | Except.ok admin =>
    if auths admin = false then (Except.error Error.NotAuthorized, s)
    else
      match s.packages id with
      | none => (Except.error Error.PackageNotFound, s)
      | some package =>
        if package.status ≠ PackageStatus.Created then
          (Except.error Error.InvalidState, s)
        else
          let cancelled : Package :=
            { package with status := PackageStatus.Cancelled }
          let s1 : State :=
            { s with packages := fun k =>
                if k = id then some cancelled else s.packages k }
          (Except.ok (), decrement_locked s1 package.token package.amount)

/-- The shared tail of `refund`: persist status Refunded and transfer the
amount from the contract to the administrator. -/
def refund_tail (s : State) (admin : Addr) (id : Nat) (package : Package) :
    Except Error Unit × State :=
  let refunded : Package := { package with status := PackageStatus.Refunded }
  let s1 : State :=
    { s with packages := fun k =>
        if k = id then some refunded else s.packages k }
  (Except.ok (),
    { s1 with balance :=
        transfer s1.balance package.token contractAddr admin package.amount })

/-- `refund(id)`: admin-only.  Created packages genuinely past expiry are
expired on the fly (with the one decrement of `locked` on this path);
Created-not-expired, Claimed and Refunded fail with InvalidState; Expired
and Cancelled proceed straight to the tail. -/
def refund (s : State) (auths : Addr → Bool) (now : Nat) (id : Nat) :
    Except Error Unit × State :=
  match get_admin s with
  | Except.error e => (Except.error e, s)
  | Except.ok admin =>
    if auths admin = false then (Except.error Error.NotAuthorized, s)
    else
      match s.packages id with
      | none => (Except.error Error.PackageNotFound, s)
      | some package =>
        if package.status = PackageStatus.Created then
          if 0 < package.expires_at ∧ package.expires_at < now then
            refund_tail (decrement_locked s package.token package.amount)
              admin id package
          else (Except.error Error.InvalidState, s)
        else if package.status = PackageStatus.Claimed ∨
            package.status = PackageStatus.Refunded then
          (Except.error Error.InvalidState, s)
        else refund_tail s admin id package

/-- `get_package(id)`: pure persistent-storage lookup. -/
def get_package (s : State) (id : Nat) : Except Error Package × State :=
  match s.packages id with
  | none => (Except.error Error.PackageNotFound, s)
  | some p => (Except.ok p, s)

/-- The contract's storage as deployed: nothing set; the external token
balances start at an arbitrary table `b0`. -/
def initialState (b0 : TokenId → Addr → Int) : State :=
  { admin := none, locked := fun _ => 0, packages := fun _ => none,
    balance := b0 }

/-- One public invocation of the contract, with arbitrary arguments,
authorization context and ledger timestamp. -/
inductive Step : State → State → Prop
  | stepInit (s : State) (admin : Addr) : Step s (init s admin).2
  | stepFund (s : State) (auths : Addr → Bool) (tok : TokenId)
      (source : Addr) (amount : Int) :
      Step s (fund s auths tok source amount).2
  | stepCreate (s : State) (auths : Addr → Bool) (now : Nat) (id : Nat)
      (recipient : Addr) (amount : Int) (tok : TokenId) (expires_at : Nat) :
      Step s (create_package s auths now id recipient amount tok expires_at).2
  | stepClaim (s : State) (auths : Addr → Bool) (now : Nat) (id : Nat) :
      Step s (claim s auths now id).2
  | stepDisburse (s : State) (auths : Addr → Bool) (id : Nat) :
      Step s (disburse s auths id).2
  | stepRevoke (s : State) (auths : Addr → Bool) (id : Nat) :
      Step s (revoke s auths id).2
  | stepRefund (s : State) (auths : Addr → Bool) (now : Nat) (id : Nat) :
      Step s (refund s auths now id).2
  | stepGet (s : State) (id : Nat) : Step s (get_package s id).2

/-- A state the deployed contract can be driven to by any sequence of
public invocations. -/
def Reachable (s : State) : Prop :=
  ∃ b0, Relation.ReflTransGen Step (initialState b0) s

/-! ### A concrete execution trace

Token 5, donor 2 holding 100, administrator 1, recipient 3.  The admin
funds the pool with 100, creates package 7 for the full 100 expiring at
time 50, the recipient attempts to claim at time 60 (auto-expiry), and
the admin then refunds at time 60. -/

/-- Initial token balances for the demonstration trace. -/
def demoB0 : TokenId → Addr → Int :=
  fun t a => if t = 5 ∧ a = 2 then 100 else 0

/-- Every identity is authorized in the demonstration trace. -/
def demoAuths : Addr → Bool := fun _ => true

/-- Freshly deployed contract for the demonstration trace. -/
def demoS0 : State := initialState demoB0

/-- After `init(1)`. -/
def demoS1 : State := (Soter.init demoS0 1).2

/-- After `fund(5, 2, 100)`. -/
def demoS2 : State := (fund demoS1 demoAuths 5 2 100).2

/-- After `create_package(7, 3, 100, 5, 50)` at time 10. -/
def demoS3 : State := (create_package demoS2 demoAuths 10 7 3 100 5 50).2

/-- After the recipient's `claim(7)` at time 60: the package auto-expires. -/
def demoS4 : State := (claim demoS3 demoAuths 60 7).2

/-- After the admin's `refund(7)` at time 60. -/
def demoS5 : State := (refund demoS4 demoAuths 60 7).2

/-- The package record `create_package(7, 3, 100, 5, 50)` stores at time
10. -/
def demoPkg7 : Package :=
  { id := 7, recipient := 3, amount := 100, token := 5,
    status := PackageStatus.Created, created_at := 10, expires_at := 50,
    metadata := [] }

/-- Package `id` has been settled: the stored record carries status
Claimed. -/
def ClaimedAt (s : State) (id : Nat) : Prop :=
  ∃ p, s.packages id = some p ∧ p.status = PackageStatus.Claimed

/-- A never-expiring Created package used as a witness input. -/
def pkgW : Package :=
  { id := 9, recipient := 3, amount := 40, token := 5,
    status := PackageStatus.Created, created_at := 0, expires_at := 0,
    metadata := [] }

/-- A witness state holding `pkgW` with 50 locked and 50 in custody. -/
def demoSW : State :=
  { admin := some 1,
    locked := fun t => if t = 5 then 50 else 0,
    packages := fun k => if k = 9 then some pkgW else none,
    balance := fun t a => if t = 5 ∧ a = contractAddr then 50 else 0 }

/-- A witness state holding package 9 already Claimed. -/
def demoSC : State :=
  { admin := some 1,
    locked := fun _ => 0,
    packages := fun k =>
      if k = 9 then some { pkgW with status := PackageStatus.Claimed }
      else none,
    balance := fun _ _ => 0 }

/-! ### Helper lemmas: `decrement_locked` -/

theorem decrement_locked_locked (s : State) (tok : TokenId) (a : Int)
    (t : TokenId) :
    (decrement_locked s tok a).locked t =
      if t = tok then (if s.locked tok > a then s.locked tok - a else 0)
      else s.locked t := rfl

theorem decrement_locked_exact (s : State) (tok : TokenId) (a : Int)
    (h : a ≤ s.locked tok) (t : TokenId) :
    (decrement_locked s tok a).locked t =
      if t = tok then s.locked tok - a else s.locked t := by
  rw [decrement_locked_locked]
  rcases lt_or_eq_of_le h with h1 | h1
  · simp [h1]
  · simp [← h1]

theorem decrement_locked_nonneg (s : State) (tok : TokenId) (a : Int)
    (h : ∀ t, 0 ≤ s.locked t) (t : TokenId) :
    0 ≤ (decrement_locked s tok a).locked t := by
  rw [decrement_locked_locked]
  split
  · split <;> omega
  · exact h t

theorem decrement_locked_packages (s : State) (tok : TokenId) (a : Int) :
    (decrement_locked s tok a).packages = s.packages := rfl

/-! ### Helper lemmas: `claim` -/

theorem claim_not_found (s : State) (auths : Addr → Bool) (now id : Nat)
    (h : s.packages id = none) :
    claim s auths now id = (Except.error Error.PackageNotFound, s) := by
  simp [claim, h]

theorem claim_not_created (s : State) (auths : Addr → Bool) (now id : Nat)
    (p : Package) (hp : s.packages id = some p)
    (hst : p.status ≠ PackageStatus.Created) :
    claim s auths now id = (Except.error Error.PackageNotActive, s) := by
  simp [claim, hp, hst]

theorem claim_expired_eq (s : State) (auths : Addr → Bool) (now id : Nat)
    (p : Package) (hp : s.packages id = some p)
    (hst : p.status = PackageStatus.Created)
    (hex : 0 < p.expires_at) (hlt : p.expires_at < now) :
    claim s auths now id =
      (Except.error Error.PackageExpired,
        { s with packages := fun k =>
            if k = id then some { p with status := PackageStatus.Expired }
            else s.packages k }) := by
  simp [claim, hp, hst, hex, hlt]

theorem claim_success_eq (s : State) (auths : Addr → Bool) (now id : Nat)
    (p : Package) (hp : s.packages id = some p)
    (hst : p.status = PackageStatus.Created)
    (hnot : ¬(0 < p.expires_at ∧ p.expires_at < now))
    (hauth : auths p.recipient = true) :
    claim s auths now id =
      (Except.ok (),
        { admin := s.admin,
          locked := fun t =>
            if t = p.token then
              (if s.locked p.token > p.amount then s.locked p.token - p.amount
               else 0)
            else s.locked t,
          packages := fun k =>
            if k = id then some { p with status := PackageStatus.Claimed }
            else s.packages k,
          balance :=
            transfer s.balance p.token contractAddr p.recipient p.amount }) := by
  simp [claim, hp, hst, hnot, hauth, decrement_locked]

theorem claim_no_auth (s : State) (auths : Addr → Bool) (now id : Nat)
    (p : Package) (hp : s.packages id = some p)
    (hst : p.status = PackageStatus.Created)
    (hnot : ¬(0 < p.expires_at ∧ p.expires_at < now))
    (hauth : auths p.recipient = false) :
    claim s auths now id = (Except.error Error.NotAuthorized, s) := by
  simp [claim, hp, hst, hnot, hauth]

/-! ### Helper lemmas: `disburse` -/

theorem disburse_not_created (s : State) (auths : Addr → Bool) (id : Nat)
    (a : Addr) (p : Package) (hadmin : s.admin = some a)
    (hauth : auths a = true) (hp : s.packages id = some p)
    (hst : p.status ≠ PackageStatus.Created) :
    disburse s auths id = (Except.error Error.PackageNotActive, s) := by
  simp [disburse, get_admin, hadmin, hauth, hp, hst]

theorem disburse_success_eq (s : State) (auths : Addr → Bool) (id : Nat)
    (a : Addr) (p : Package) (hadmin : s.admin = some a)
    (hauth : auths a = true) (hp : s.packages id = some p)
    (hst : p.status = PackageStatus.Created) :
    disburse s auths id =
      (Except.ok (),
        { admin := s.admin,
          locked := fun t =>
            if t = p.token then
              (if s.locked p.token > p.amount then s.locked p.token - p.amount
               else 0)
            else s.locked t,
          packages := fun k =>
            if k = id then some { p with status := PackageStatus.Claimed }
            else s.packages k,
          balance :=
            transfer s.balance p.token contractAddr p.recipient p.amount }) := by
  simp [disburse, get_admin, hadmin, hauth, hp, hst, decrement_locked]

/-! ### Helper lemmas: `revoke` -/

theorem revoke_not_created (s : State) (auths : Addr → Bool) (id : Nat)
    (a : Addr) (p : Package) (hadmin : s.admin = some a)
    (hauth : auths a = true) (hp : s.packages id = some p)
    (hst : p.status ≠ PackageStatus.Created) :
    revoke s auths id = (Except.error Error.InvalidState, s) := by
  simp [revoke, get_admin, hadmin, hauth, hp, hst]

theorem revoke_success_eq (s : State) (auths : Addr → Bool) (id : Nat)
    (a : Addr) (p : Package) (hadmin : s.admin = some a)
    (hauth : auths a = true) (hp : s.packages id = some p)
    (hst : p.status = PackageStatus.Created) :
    revoke s auths id =
      (Except.ok (),
        { admin := s.admin,
          locked := fun t =>
            if t = p.token then
              (if s.locked p.token > p.amount then s.locked p.token - p.amount
               else 0)
            else s.locked t,
          packages := fun k =>
            if k = id then some { p with status := PackageStatus.Cancelled }
            else s.packages k,
          balance := s.balance }) := by
  simp [revoke, get_admin, hadmin, hauth, hp, hst, decrement_locked]

/-! ### Helper lemmas: `refund` -/

theorem refund_created_not_past (s : State) (auths : Addr → Bool)
    (now id : Nat) (a : Addr) (p : Package) (hadmin : s.admin = some a)
    (hauth : auths a = true) (hp : s.packages id = some p)
    (hst : p.status = PackageStatus.Created)
    (hnot : ¬(0 < p.expires_at ∧ p.expires_at < now)) :
    refund s auths now id = (Except.error Error.InvalidState, s) := by
  simp [refund, get_admin, hadmin, hauth, hp, hst, hnot]

theorem refund_settled (s : State) (auths : Addr → Bool) (now id : Nat)
    (a : Addr) (p : Package) (hadmin : s.admin = some a)
    (hauth : auths a = true) (hp : s.packages id = some p)
    (hst : p.status = PackageStatus.Claimed ∨
      p.status = PackageStatus.Refunded) :
    refund s auths now id = (Except.error Error.InvalidState, s) := by
  have hne : p.status ≠ PackageStatus.Created := by
    rcases hst with h | h <;> simp [h]
  simp [refund, get_admin, hadmin, hauth, hp, hne, hst]

theorem refund_terminal_eq (s : State) (auths : Addr → Bool) (now id : Nat)
    (a : Addr) (p : Package) (hadmin : s.admin = some a)
    (hauth : auths a = true) (hp : s.packages id = some p)
    (hst : p.status = PackageStatus.Expired ∨
      p.status = PackageStatus.Cancelled) :
    refund s auths now id =
      (Except.ok (),
        { admin := s.admin,
          locked := s.locked,
          packages := fun k =>
            if k = id then some { p with status := PackageStatus.Refunded }
            else s.packages k,
          balance :=
            transfer s.balance p.token contractAddr a p.amount }) := by
  have hne : p.status ≠ PackageStatus.Created := by
    rcases hst with h | h <;> simp [h]
  have hne2 : ¬(p.status = PackageStatus.Claimed ∨
      p.status = PackageStatus.Refunded) := by
    rcases hst with h | h <;> simp [h]
  simp [refund, get_admin, hadmin, hauth, hp, hne, hne2, refund_tail]

theorem refund_created_past_eq (s : State) (auths : Addr → Bool)
    (now id : Nat) (a : Addr) (p : Package) (hadmin : s.admin = some a)
    (hauth : auths a = true) (hp : s.packages id = some p)
    (hst : p.status = PackageStatus.Created)
    (hex : 0 < p.expires_at) (hlt : p.expires_at < now) :
    refund s auths now id =
      (Except.ok (),
        { admin := s.admin,
          locked := fun t =>
            if t = p.token then
              (if s.locked p.token > p.amount then s.locked p.token - p.amount
               else 0)
            else s.locked t,
          packages := fun k =>
            if k = id then some { p with status := PackageStatus.Refunded }
            else s.packages k,
          balance :=
            transfer s.balance p.token contractAddr a p.amount }) := by
  simp [refund, get_admin, hadmin, hauth, hp, hst, hex, hlt, refund_tail,
    decrement_locked]

/-! ### Helper lemmas: `get_package` and storage-frame facts -/

theorem get_package_snd (s : State) (id : Nat) : (get_package s id).2 = s := by
  unfold get_package
  split <;> rfl

theorem get_package_fst (s : State) (id : Nat) :
    (get_package s id).1 =
      (match s.packages id with
       | none => Except.error Error.PackageNotFound
       | some p => Except.ok p) := by
  unfold get_package
  split <;> simp_all

theorem init_snd_frame (s : State) (a : Addr) :
    (Soter.init s a).2.locked = s.locked ∧
    (Soter.init s a).2.packages = s.packages ∧
    (Soter.init s a).2.balance = s.balance := by
  unfold Soter.init
  split <;> exact ⟨rfl, rfl, rfl⟩

theorem fund_snd_frame (s : State) (auths : Addr → Bool) (tok : TokenId)
    (source : Addr) (amount : Int) :
    (fund s auths tok source amount).2.locked = s.locked ∧
    (fund s auths tok source amount).2.packages = s.packages := by
  unfold fund
  split
  · exact ⟨rfl, rfl⟩
  · split <;> exact ⟨rfl, rfl⟩

/-! ### Exhaustive post-state case analyses, one per mutating operation -/

theorem create_snd_cases (s : State) (auths : Addr → Bool) (now j : Nat)
    (recipient : Addr) (amount : Int) (tok : TokenId) (expires_at : Nat) :
    (create_package s auths now j recipient amount tok expires_at).2 = s ∨
    (s.packages j = none ∧ 0 < amount ∧
      (create_package s auths now j recipient amount tok expires_at).2 =
        { admin := s.admin,
          locked := fun t =>
            if t = tok then s.locked tok + amount else s.locked t,
          packages := fun k =>
            if k = j then
              some { id := j, recipient := recipient, amount := amount,
                     token := tok, status := PackageStatus.Created,
                     created_at := now, expires_at := expires_at,
                     metadata := [] }
            else s.packages k,
          balance := s.balance }) := by
  rcases ha : s.admin with _ | a
  · left; simp [create_package, get_admin, ha]
  · cases hauth : auths a
    · left; simp [create_package, get_admin, ha, hauth]
    · by_cases hamt : amount ≤ 0
      · left; simp [create_package, get_admin, ha, hauth, hamt]
      · rcases hq : s.packages j with _ | q
        · by_cases hbal : s.balance tok contractAddr < s.locked tok + amount
          · left; simp [create_package, get_admin, ha, hauth, hamt, hq, hbal]
          · right
            refine ⟨rfl, by omega, ?_⟩
            simp [create_package, get_admin, ha, hauth, hamt, hq, hbal]
        · left; simp [create_package, get_admin, ha, hauth, hamt, hq]

theorem claim_snd_cases (s : State) (auths : Addr → Bool) (now j : Nat) :
    (claim s auths now j).2 = s ∨
    (∃ q, s.packages j = some q ∧ q.status = PackageStatus.Created ∧
      ((claim s auths now j).2 =
        { s with packages := fun k =>
            if k = j then some { q with status := PackageStatus.Expired }
            else s.packages k } ∨
       (claim s auths now j).2 =
        { admin := s.admin,
          locked := fun t =>
            if t = q.token then
              (if s.locked q.token > q.amount then s.locked q.token - q.amount
               else 0)
            else s.locked t,
          packages := fun k =>
            if k = j then some { q with status := PackageStatus.Claimed }
            else s.packages k,
          balance :=
            transfer s.balance q.token contractAddr q.recipient q.amount })) := by
  rcases hq : s.packages j with _ | q
  · left; rw [claim_not_found s auths now j hq]
  · by_cases hst : q.status = PackageStatus.Created
    · by_cases hpast : 0 < q.expires_at ∧ q.expires_at < now
      · right
        exact ⟨q, rfl, hst, Or.inl
          (by rw [claim_expired_eq s auths now j q hq hst hpast.1 hpast.2])⟩
      · cases hauth : auths q.recipient
        · left; rw [claim_no_auth s auths now j q hq hst hpast hauth]
        · right
          exact ⟨q, rfl, hst, Or.inr
            (by rw [claim_success_eq s auths now j q hq hst hpast hauth])⟩
    · left; rw [claim_not_created s auths now j q hq hst]

theorem disburse_snd_cases (s : State) (auths : Addr → Bool) (j : Nat) :
    (disburse s auths j).2 = s ∨
    (∃ q, s.packages j = some q ∧ q.status = PackageStatus.Created ∧
      (disburse s auths j).2 =
        { admin := s.admin,
          locked := fun t =>
            if t = q.token then
              (if s.locked q.token > q.amount then s.locked q.token - q.amount
               else 0)
            else s.locked t,
          packages := fun k =>
            if k = j then some { q with status := PackageStatus.Claimed }
            else s.packages k,
          balance :=
            transfer s.balance q.token contractAddr q.recipient q.amount }) := by
  rcases ha : s.admin with _ | a
  · left; simp [disburse, get_admin, ha]
  · cases hauth : auths a
    · left; simp [disburse, get_admin, ha, hauth]
    · rcases hq : s.packages j with _ | q
      · left; simp [disburse, get_admin, ha, hauth, hq]
      · by_cases hst : q.status = PackageStatus.Created
        · right
          exact ⟨q, rfl, hst,
            by rw [disburse_success_eq s auths j a q ha hauth hq hst, ha]⟩
        · left; rw [disburse_not_created s auths j a q ha hauth hq hst]

theorem revoke_snd_cases (s : State) (auths : Addr → Bool) (j : Nat) :
    (revoke s auths j).2 = s ∨
    (∃ q, s.packages j = some q ∧ q.status = PackageStatus.Created ∧
      (revoke s auths j).2 =
        { admin := s.admin,
          locked := fun t =>
            if t = q.token then
              (if s.locked q.token > q.amount then s.locked q.token - q.amount
               else 0)
            else s.locked t,
          packages := fun k =>
            if k = j then some { q with status := PackageStatus.Cancelled }
            else s.packages k,
          balance := s.balance }) := by
  rcases ha : s.admin with _ | a
  · left; simp [revoke, get_admin, ha]
  · cases hauth : auths a
    · left; simp [revoke, get_admin, ha, hauth]
    · rcases hq : s.packages j with _ | q
      · left; simp [revoke, get_admin, ha, hauth, hq]
      · by_cases hst : q.status = PackageStatus.Created
        · right
          exact ⟨q, rfl, hst,
            by rw [revoke_success_eq s auths j a q ha hauth hq hst, ha]⟩
        · left; rw [revoke_not_created s auths j a q ha hauth hq hst]

theorem refund_snd_cases (s : State) (auths : Addr → Bool) (now j : Nat) :
    (refund s auths now j).2 = s ∨
    (∃ a q, s.admin = some a ∧ s.packages j = some q ∧
      (((q.status = PackageStatus.Expired ∨
         q.status = PackageStatus.Cancelled) ∧
        (refund s auths now j).2 =
          { admin := s.admin,
            locked := s.locked,
            packages := fun k =>
              if k = j then some { q with status := PackageStatus.Refunded }
              else s.packages k,
            balance :=
              transfer s.balance q.token contractAddr a q.amount }) ∨
       (q.status = PackageStatus.Created ∧
        (refund s auths now j).2 =
          { admin := s.admin,
            locked := fun t =>
              if t = q.token then
                (if s.locked q.token > q.amount then
                   s.locked q.token - q.amount
                 else 0)
              else s.locked t,
            packages := fun k =>
              if k = j then some { q with status := PackageStatus.Refunded }
              else s.packages k,
            balance :=
              transfer s.balance q.token contractAddr a q.amount }))) := by
  rcases ha : s.admin with _ | a
  · left; simp [refund, get_admin, ha]
  · cases hauth : auths a
    · left; simp [refund, get_admin, ha, hauth]
    · rcases hq : s.packages j with _ | q
      · left; simp [refund, get_admin, ha, hauth, hq]
      · rcases hst : q.status with _ | _ | _ | _ | _
        · by_cases hpast : 0 < q.expires_at ∧ q.expires_at < now
          · right
            exact ⟨a, q, rfl, rfl, Or.inr ⟨hst,
              by rw [refund_created_past_eq s auths now j a q ha hauth hq hst
                hpast.1 hpast.2, ha]⟩⟩
          · left
            rw [refund_created_not_past s auths now j a q ha hauth hq hst
              hpast]
        · left; rw [refund_settled s auths now j a q ha hauth hq (Or.inl hst)]
        · right
          exact ⟨a, q, rfl, rfl, Or.inl ⟨Or.inl hst,
            by rw [refund_terminal_eq s auths now j a q ha hauth hq
              (Or.inl hst), ha]⟩⟩
        · right
          exact ⟨a, q, rfl, rfl, Or.inl ⟨Or.inr hst,
            by rw [refund_terminal_eq s auths now j a q ha hauth hq
              (Or.inr hst), ha]⟩⟩
        · left; rw [refund_settled s auths now j a q ha hauth hq (Or.inr hst)]

/-! ### Step-level invariants -/

theorem step_locked_nonneg (s s' : State) (h : Step s s')
    (hn : ∀ t, 0 ≤ s.locked t) : ∀ t, 0 ≤ s'.locked t := by
  cases h with
  | stepInit a =>
    intro t; rw [(init_snd_frame s a).1]; exact hn t
  | stepFund auths tok source amount =>
    intro t; rw [(fund_snd_frame s auths tok source amount).1]; exact hn t
  | stepGet j =>
    intro t; rw [get_package_snd]; exact hn t
  | stepCreate auths now j recipient amount tok expires_at =>
    intro t
    rcases create_snd_cases s auths now j recipient amount tok expires_at
      with h1 | ⟨_, hamt, h1⟩
    · rw [h1]; exact hn t
    · rw [h1]
      have h2 := hn t
      have h3 := hn tok
      dsimp only
      split <;> omega
  | stepClaim auths now j =>
    intro t
    rcases claim_snd_cases s auths now j with h1 | ⟨q, _, _, h1 | h1⟩
    · rw [h1]; exact hn t
    · rw [h1]; exact hn t
    · rw [h1]
      have h2 := hn t
      have h3 := hn q.token
      dsimp only
      split
      · split <;> omega
      · omega
  | stepDisburse auths j =>
    intro t
    rcases disburse_snd_cases s auths j with h1 | ⟨q, _, _, h1⟩
    · rw [h1]; exact hn t
    · rw [h1]
      have h2 := hn t
      have h3 := hn q.token
      dsimp only
      split
      · split <;> omega
      · omega
  | stepRevoke auths j =>
    intro t
    rcases revoke_snd_cases s auths j with h1 | ⟨q, _, _, h1⟩
    · rw [h1]; exact hn t
    · rw [h1]
      have h2 := hn t
      have h3 := hn q.token
      dsimp only
      split
      · split <;> omega
      · omega
  | stepRefund auths now j =>
    intro t
    rcases refund_snd_cases s auths now j
      with h1 | ⟨a, q, _, _, ⟨_, h1⟩ | ⟨_, h1⟩⟩
    · rw [h1]; exact hn t
    · rw [h1]; exact hn t
    · rw [h1]
      have h2 := hn t
      have h3 := hn q.token
      dsimp only
      split
      · split <;> omega
      · omega

theorem step_preserves_ClaimedAt (s s' : State) (id : Nat) (h : Step s s')
    (hc : ClaimedAt s id) : ClaimedAt s' id := by
  obtain ⟨p, hp, hcl⟩ := hc
  cases h with
  | stepInit a =>
    exact ⟨p, by rw [(init_snd_frame s a).2.1]; exact hp, hcl⟩
  | stepFund auths tok source amount =>
    exact ⟨p,
      by rw [(fund_snd_frame s auths tok source amount).2]; exact hp, hcl⟩
  | stepGet j =>
    exact ⟨p, by rw [get_package_snd]; exact hp, hcl⟩
  | stepCreate auths now j recipient amount tok expires_at =>
    rcases create_snd_cases s auths now j recipient amount tok expires_at
      with h1 | ⟨hnone, _, h1⟩
    · exact ⟨p, by rw [h1]; exact hp, hcl⟩
    · refine ⟨p, ?_, hcl⟩
      rw [h1]
      dsimp only
      have hne : ¬(id = j) := by
        intro he; rw [he, hnone] at hp; exact Option.noConfusion hp
      simp [hne, hp]
  | stepClaim auths now j =>
    rcases claim_snd_cases s auths now j with h1 | ⟨q, hq, hst, h1 | h1⟩
    · exact ⟨p, by rw [h1]; exact hp, hcl⟩
    all_goals
      refine ⟨p, ?_, hcl⟩
      rw [h1]
      dsimp only
      have hne : ¬(id = j) := by
        intro he
        rw [he, hq] at hp
        injection hp with hpe
        rw [hpe] at hst
        rw [hcl] at hst
        exact PackageStatus.noConfusion hst
      simp [hne, hp]
  | stepDisburse auths j =>
    rcases disburse_snd_cases s auths j with h1 | ⟨q, hq, hst, h1⟩
    · exact ⟨p, by rw [h1]; exact hp, hcl⟩
    · refine ⟨p, ?_, hcl⟩
      rw [h1]
      dsimp only
      have hne : ¬(id = j) := by
        intro he
        rw [he, hq] at hp
        injection hp with hpe
        rw [hpe] at hst
        rw [hcl] at hst
        exact PackageStatus.noConfusion hst
      simp [hne, hp]
  | stepRevoke auths j =>
    rcases revoke_snd_cases s auths j with h1 | ⟨q, hq, hst, h1⟩
    · exact ⟨p, by rw [h1]; exact hp, hcl⟩
    · refine ⟨p, ?_, hcl⟩
      rw [h1]
      dsimp only
      have hne : ¬(id = j) := by
        intro he
        rw [he, hq] at hp
        injection hp with hpe
        rw [hpe] at hst
        rw [hcl] at hst
        exact PackageStatus.noConfusion hst
      simp [hne, hp]
  | stepRefund auths now j =>
    rcases refund_snd_cases s auths now j
      with h1 | ⟨a, q, _, hq, ⟨hst, h1⟩ | ⟨hst, h1⟩⟩
    · exact ⟨p, by rw [h1]; exact hp, hcl⟩
    · refine ⟨p, ?_, hcl⟩
      rw [h1]
      dsimp only
      have hne : ¬(id = j) := by
        intro he
        rw [he, hq] at hp
        injection hp with hpe
        rw [hpe] at hst
        rcases hst with hst | hst <;> rw [hcl] at hst <;>
          exact PackageStatus.noConfusion hst
      simp [hne, hp]
    · refine ⟨p, ?_, hcl⟩
      rw [h1]
      dsimp only
      have hne : ¬(id = j) := by
        intro he
        rw [he, hq] at hp
        injection hp with hpe
        rw [hpe] at hst
        rw [hcl] at hst
        exact PackageStatus.noConfusion hst
      simp [hne, hp]

theorem reachable_preserves_ClaimedAt (s s' : State) (id : Nat)
    (hc : ClaimedAt s id) (h : Relation.ReflTransGen Step s s') :
    ClaimedAt s' id := by
  induction h with
  | refl => exact hc
  | tail _ hstep ih => exact step_preserves_ClaimedAt _ _ id hstep ih

theorem claim_ok_ClaimedAt (s : State) (auths : Addr → Bool) (now id : Nat)
    (h : (claim s auths now id).1 = Except.ok ()) :
    ClaimedAt (claim s auths now id).2 id := by
  rcases hq : s.packages id with _ | q
  · rw [claim_not_found s auths now id hq] at h; simp at h
  · by_cases hst : q.status = PackageStatus.Created
    · by_cases hpast : 0 < q.expires_at ∧ q.expires_at < now
      · rw [claim_expired_eq s auths now id q hq hst hpast.1 hpast.2] at h
        simp at h
      · cases hauth : auths q.recipient
        · rw [claim_no_auth s auths now id q hq hst hpast hauth] at h
          simp at h
        · rw [claim_success_eq s auths now id q hq hst hpast hauth]
          exact ⟨{ q with status := PackageStatus.Claimed }, by simp, rfl⟩
    · rw [claim_not_created s auths now id q hq hst] at h; simp at h

theorem disburse_ok_ClaimedAt (s : State) (auths : Addr → Bool) (id : Nat)
    (h : (disburse s auths id).1 = Except.ok ()) :
    ClaimedAt (disburse s auths id).2 id := by
  rcases ha : s.admin with _ | a
  · simp [disburse, get_admin, ha] at h
  · cases hauth : auths a
    · simp [disburse, get_admin, ha, hauth] at h
    · rcases hq : s.packages id with _ | q
      · simp [disburse, get_admin, ha, hauth, hq] at h
      · by_cases hst : q.status = PackageStatus.Created
        · rw [disburse_success_eq s auths id a q ha hauth hq hst]
          exact ⟨{ q with status := PackageStatus.Claimed }, by simp, rfl⟩
        · rw [disburse_not_created s auths id a q ha hauth hq hst] at h
          simp at h

theorem reachable_demoS5 : Reachable demoS5 := by
  refine ⟨demoB0, ?_⟩
  have h1 : Step demoS0 demoS1 := Step.stepInit demoS0 1
  have h2 : Step demoS1 demoS2 := Step.stepFund demoS1 demoAuths 5 2 100
  have h3 : Step demoS2 demoS3 :=
    Step.stepCreate demoS2 demoAuths 10 7 3 100 5 50
  have h4 : Step demoS3 demoS4 := Step.stepClaim demoS3 demoAuths 60 7
  have h5 : Step demoS4 demoS5 := Step.stepRefund demoS4 demoAuths 60 7
  exact Relation.ReflTransGen.head h1 (Relation.ReflTransGen.head h2
    (Relation.ReflTransGen.head h3 (Relation.ReflTransGen.head h4
      (Relation.ReflTransGen.single h5))))

/-! ### Claim theorems -/

/-- C1 (code defect, witnessed): the demonstration trace consists of
successful public calls (plus claim's documented auto-expiry error), so
its final state demoS5 is reachable; yet there locked[5] = 100 while the
custodial balance of token 5 is 0, refuting the solvency invariant
`locked[asset] ≤ custodial_balance(asset)` for reachable states.  The
admission-control half of the claim does hold at the creation point: with
the pool fully locked, a further create_package request for 1 more unit
fails with InsufficientFunds. -/
theorem solvency_invariant_violated :
    (Soter.init demoS0 1).1 = Except.ok () ∧
    (fund demoS1 demoAuths 5 2 100).1 = Except.ok () ∧
    (create_package demoS2 demoAuths 10 7 3 100 5 50).1 = Except.ok 7 ∧
    (create_package demoS3 demoAuths 10 8 4 1 5 0).1 =
      Except.error Error.InsufficientFunds ∧
    (claim demoS3 demoAuths 60 7).1 = Except.error Error.PackageExpired ∧
    (refund demoS4 demoAuths 60 7).1 = Except.ok () ∧
    Reachable demoS5 ∧
    demoS5.locked 5 = 100 ∧
    demoS5.balance 5 contractAddr = 0 ∧
    demoS5.balance 5 contractAddr < demoS5.locked 5 := by
  refine ⟨rfl, rfl, rfl, rfl, rfl, rfl, reachable_demoS5, by decide,
    by decide, by decide⟩

/-- C2 counterexample: in the reachable state demoS3, package 7 is
Created with amount 100 and locked[5] = 100; claim at time 60 transitions
it out of Created into Expired, yet locked[5] is still 100 afterwards —
this terminal transition does not decrement the accumulator by the
package amount. -/
theorem unlock_on_terminal_cex :
    demoS3.packages 7 = some demoPkg7 ∧
    demoPkg7.status = PackageStatus.Created ∧
    demoPkg7.amount = 100 ∧
    demoS3.locked 5 = 100 ∧
    (claim demoS3 demoAuths 60 7).1 = Except.error Error.PackageExpired ∧
    demoS4.packages 7 =
      some { demoPkg7 with status := PackageStatus.Expired } ∧
    demoS4.locked 5 = 100 := by
  exact ⟨rfl, rfl, rfl, by decide, rfl, rfl, by decide⟩

/-- C2 (amended): every transition out of Created into Claimed (claim or
disburse) or Cancelled (revoke), and the Created-to-Expired-to-Refunded
transition inside refund, decrements locked[asset] by exactly the package
amount (exact whenever the accumulator covers the amount, as it does in
reachable states), and at most once per package: claim's auto-expiry
transition into Expired leaves the accumulator unchanged, and once a
package has left Created no operation on it ever changes the accumulator
again. -/
theorem unlock_on_terminal_amended :
    (∀ s auths now id p, s.packages id = some p →
      p.status = PackageStatus.Created →
      (claim s auths now id).1 = Except.ok () →
      p.amount ≤ s.locked p.token →
      ∀ t, (claim s auths now id).2.locked t =
        (if t = p.token then s.locked p.token - p.amount
         else s.locked t)) ∧
    (∀ s auths id a p, s.admin = some a → auths a = true →
      s.packages id = some p → p.status = PackageStatus.Created →
      p.amount ≤ s.locked p.token →
      ∀ t, (disburse s auths id).2.locked t =
        (if t = p.token then s.locked p.token - p.amount
         else s.locked t)) ∧
    (∀ s auths id a p, s.admin = some a → auths a = true →
      s.packages id = some p → p.status = PackageStatus.Created →
      p.amount ≤ s.locked p.token →
      ∀ t, (revoke s auths id).2.locked t =
        (if t = p.token then s.locked p.token - p.amount
         else s.locked t)) ∧
    (∀ s auths now id a p, s.admin = some a → auths a = true →
      s.packages id = some p → p.status = PackageStatus.Created →
      0 < p.expires_at → p.expires_at < now →
      p.amount ≤ s.locked p.token →
      ∀ t, (refund s auths now id).2.locked t =
        (if t = p.token then s.locked p.token - p.amount
         else s.locked t)) ∧
    (∀ s auths now id,
      (claim s auths now id).1 = Except.error Error.PackageExpired →
      (claim s auths now id).2.locked = s.locked) ∧
    (∀ s id p, s.packages id = some p →
      p.status ≠ PackageStatus.Created →
      (∀ auths now, (claim s auths now id).2 = s) ∧
      (∀ auths, (disburse s auths id).2 = s) ∧
      (∀ auths, (revoke s auths id).2 = s) ∧
      (∀ auths now, (refund s auths now id).2.locked = s.locked)) := by
  refine ⟨?_, ?_, ?_, ?_, ?_, ?_⟩
  · intro s auths now id p hp hst hok hle t
    by_cases hpast : 0 < p.expires_at ∧ p.expires_at < now
    · rw [claim_expired_eq s auths now id p hp hst hpast.1 hpast.2] at hok
      simp at hok
    · cases hauth : auths p.recipient
      · rw [claim_no_auth s auths now id p hp hst hpast hauth] at hok
        simp at hok
      · rw [claim_success_eq s auths now id p hp hst hpast hauth]
        dsimp only
        rcases lt_or_eq_of_le hle with h1 | h1
        · simp [h1]
        · simp [← h1]
  · intro s auths id a p ha hauth hp hst hle t
    rw [disburse_success_eq s auths id a p ha hauth hp hst]
    dsimp only
    rcases lt_or_eq_of_le hle with h1 | h1
    · simp [h1]
    · simp [← h1]
  · intro s auths id a p ha hauth hp hst hle t
    rw [revoke_success_eq s auths id a p ha hauth hp hst]
    dsimp only
    rcases lt_or_eq_of_le hle with h1 | h1
    · simp [h1]
    · simp [← h1]
  · intro s auths now id a p ha hauth hp hst hex hlt hle t
    rw [refund_created_past_eq s auths now id a p ha hauth hp hst hex hlt]
    dsimp only
    rcases lt_or_eq_of_le hle with h1 | h1
    · simp [h1]
    · simp [← h1]
  · intro s auths now id hok
    rcases hq : s.packages id with _ | q
    · rw [claim_not_found s auths now id hq] at hok; simp at hok
    · by_cases hst : q.status = PackageStatus.Created
      · by_cases hpast : 0 < q.expires_at ∧ q.expires_at < now
        · rw [claim_expired_eq s auths now id q hq hst hpast.1 hpast.2]
        · cases hauth : auths q.recipient
          · rw [claim_no_auth s auths now id q hq hst hpast hauth] at hok
            simp at hok
          · rw [claim_success_eq s auths now id q hq hst hpast hauth] at hok
            simp at hok
      · rw [claim_not_created s auths now id q hq hst] at hok; simp at hok
  · intro s id p hp hst
    refine ⟨?_, ?_, ?_, ?_⟩
    · intro auths now
      rw [claim_not_created s auths now id p hp hst]
    · intro auths
      rcases disburse_snd_cases s auths id with h1 | ⟨q, hq, hqst, h1⟩
      · exact h1
      · rw [hp] at hq
        injection hq with hq
        rw [hq] at hst
        exact absurd hqst hst
    · intro auths
      rcases revoke_snd_cases s auths id with h1 | ⟨q, hq, hqst, h1⟩
      · exact h1
      · rw [hp] at hq
        injection hq with hq
        rw [hq] at hst
        exact absurd hqst hst
    · intro auths now
      rcases refund_snd_cases s auths now id
        with h1 | ⟨a, q, _, hq, ⟨_, h1⟩ | ⟨hqst, h1⟩⟩
      · rw [h1]
      · rw [h1]
      · rw [hp] at hq
        injection hq with hq
        rw [hq] at hst
        exact absurd hqst hst

theorem unlock_on_terminal_amended_witness :
    (claim demoSW demoAuths 0 9).2.locked 5 = 10 := by
  have h := unlock_on_terminal_amended.1 demoSW demoAuths 0 9 pkgW rfl rfl
    rfl (by decide) 5
  simpa [demoSW, pkgW] using h

/-- C3: for a Created package with non-zero expiry strictly before the
current time, claim persists the Expired status, returns PackageExpired,
and leaves the locked accumulator, the balances, the admin, and every
other package untouched. -/
theorem claim_auto_expiry_spec (s : State) (auths : Addr → Bool)
    (now id : Nat) (p : Package) (hp : s.packages id = some p)
    (hst : p.status = PackageStatus.Created) (hex : p.expires_at ≠ 0)
    (hlt : p.expires_at < now) :
    (claim s auths now id).1 = Except.error Error.PackageExpired ∧
    (claim s auths now id).2.packages id =
      some { p with status := PackageStatus.Expired } ∧
    (claim s auths now id).2.locked = s.locked ∧
    (claim s auths now id).2.balance = s.balance ∧
    (claim s auths now id).2.admin = s.admin ∧
    (∀ k, k ≠ id → (claim s auths now id).2.packages k = s.packages k) := by
  have h0 : 0 < p.expires_at := Nat.pos_of_ne_zero hex
  rw [claim_expired_eq s auths now id p hp hst h0 hlt]
  refine ⟨rfl, by simp, rfl, rfl, rfl, ?_⟩
  intro k hk
  simp [hk]

theorem claim_auto_expiry_spec_witness :
    (claim demoS3 demoAuths 60 7).2.locked = demoS3.locked :=
  (claim_auto_expiry_spec demoS3 demoAuths 60 7 demoPkg7 rfl rfl
    (by decide) (by decide)).2.2.1

/-- C4: a successful claim or disburse leaves the package Claimed; the
Claimed status persists across every further public invocation; and from
any state where the package is Claimed, claim fails with PackageNotActive
and so does disburse when invoked with the administrator's
authorization — hence at most one settlement ever succeeds per id. -/
theorem at_most_one_settlement :
    (∀ s auths now id, (claim s auths now id).1 = Except.ok () →
      ClaimedAt (claim s auths now id).2 id) ∧
    (∀ s auths id, (disburse s auths id).1 = Except.ok () →
      ClaimedAt (disburse s auths id).2 id) ∧
    (∀ s s₂ id, ClaimedAt s id → Relation.ReflTransGen Step s s₂ →
      ClaimedAt s₂ id) ∧
    (∀ s id, ClaimedAt s id →
      (∀ auths now,
        (claim s auths now id).1 = Except.error Error.PackageNotActive) ∧
      (∀ auths a, s.admin = some a → auths a = true →
        (disburse s auths id).1 =
          Except.error Error.PackageNotActive)) := by
  refine ⟨claim_ok_ClaimedAt, disburse_ok_ClaimedAt,
    reachable_preserves_ClaimedAt, ?_⟩
  intro s id hc
  obtain ⟨p, hp, hcl⟩ := hc
  have hne : p.status ≠ PackageStatus.Created := by simp [hcl]
  constructor
  · intro auths now
    rw [claim_not_created s auths now id p hp hne]
  · intro auths a ha hauth
    rw [disburse_not_created s auths id a p ha hauth hp hne]

theorem at_most_one_settlement_witness :
    (claim demoSC demoAuths 0 9).1 =
      Except.error Error.PackageNotActive :=
  (at_most_one_settlement.2.2.2 demoSC 9
    ⟨{ pkgW with status := PackageStatus.Claimed }, rfl, rfl⟩).1 demoAuths 0

/-- C5: with the administrator set and authorized and the package
present, refund fails with InvalidState exactly on Claimed, Refunded, or
Created-not-yet-past-expiry; on Expired or Cancelled it persists status
Refunded and transfers the amount from the contract to the administrator
without touching the accumulator; on Created-genuinely-past-expiry it
does the same and additionally decrements locked[asset] by the package
amount. -/
theorem refund_spec (s : State) (auths : Addr → Bool) (now id : Nat)
    (a : Addr) (p : Package) (hadmin : s.admin = some a)
    (hauth : auths a = true) (hp : s.packages id = some p) :
    ((refund s auths now id).1 = Except.error Error.InvalidState ↔
      (p.status = PackageStatus.Claimed ∨
       p.status = PackageStatus.Refunded ∨
       (p.status = PackageStatus.Created ∧
        ¬(0 < p.expires_at ∧ p.expires_at < now)))) ∧
    ((p.status = PackageStatus.Expired ∨
      p.status = PackageStatus.Cancelled) →
      ((refund s auths now id).1 = Except.ok () ∧
       (refund s auths now id).2.packages id =
         some { p with status := PackageStatus.Refunded } ∧
       (refund s auths now id).2.locked = s.locked ∧
       (refund s auths now id).2.balance =
         transfer s.balance p.token contractAddr a p.amount)) ∧
    ((p.status = PackageStatus.Created ∧ 0 < p.expires_at ∧
      p.expires_at < now) →
      ((refund s auths now id).1 = Except.ok () ∧
       (refund s auths now id).2.packages id =
         some { p with status := PackageStatus.Refunded } ∧
       (p.amount ≤ s.locked p.token →
         ∀ t, (refund s auths now id).2.locked t =
           (if t = p.token then s.locked p.token - p.amount
            else s.locked t)) ∧
       (refund s auths now id).2.balance =
         transfer s.balance p.token contractAddr a p.amount)) := by
  refine ⟨?_, ?_, ?_⟩
  · rcases hst : p.status with _ | _ | _ | _ | _
    · by_cases hpast : 0 < p.expires_at ∧ p.expires_at < now
      · rw [refund_created_past_eq s auths now id a p hadmin hauth hp hst
          hpast.1 hpast.2]
        simp [hpast]
      · rw [refund_created_not_past s auths now id a p hadmin hauth hp hst
          hpast]
        simp [hpast]
    · rw [refund_settled s auths now id a p hadmin hauth hp (Or.inl hst)]
      simp
    · rw [refund_terminal_eq s auths now id a p hadmin hauth hp
        (Or.inl hst)]
      simp
    · rw [refund_terminal_eq s auths now id a p hadmin hauth hp
        (Or.inr hst)]
      simp
    · rw [refund_settled s auths now id a p hadmin hauth hp (Or.inr hst)]
      simp
  · intro hst
    rw [refund_terminal_eq s auths now id a p hadmin hauth hp hst]
    exact ⟨rfl, by simp, rfl, rfl⟩
  · rintro ⟨hst, hex, hlt⟩
    rw [refund_created_past_eq s auths now id a p hadmin hauth hp hst hex
      hlt]
    refine ⟨rfl, by simp, ?_, rfl⟩
    intro hle t
    dsimp only
    rcases lt_or_eq_of_le hle with h1 | h1
    · simp [h1]
    · simp [← h1]

theorem refund_spec_witness :
    (refund demoS3 demoAuths 60 7).1 = Except.ok () :=
  ((refund_spec demoS3 demoAuths 60 7 1 demoPkg7 rfl rfl rfl).2.2
    ⟨rfl, by decide, by decide⟩).1

/-- C6: with the administrator set and authorized, disburse succeeds on
every Created package — its definition never reads the clock, so expiry
is irrelevant — marking it Claimed, decrementing locked[asset] by the
package amount, and transferring the amount out of the custodial
balance to the recipient; on any other status it fails with
PackageNotActive and changes nothing. -/
theorem disburse_spec (s : State) (auths : Addr → Bool) (id : Nat)
    (a : Addr) (p : Package) (hadmin : s.admin = some a)
    (hauth : auths a = true) (hp : s.packages id = some p) :
    (p.status = PackageStatus.Created →
      ((disburse s auths id).1 = Except.ok () ∧
       (disburse s auths id).2.packages id =
         some { p with status := PackageStatus.Claimed } ∧
       (p.amount ≤ s.locked p.token →
         ∀ t, (disburse s auths id).2.locked t =
           (if t = p.token then s.locked p.token - p.amount
            else s.locked t)) ∧
       (disburse s auths id).2.balance =
         transfer s.balance p.token contractAddr p.recipient p.amount)) ∧
    (p.status ≠ PackageStatus.Created →
      disburse s auths id = (Except.error Error.PackageNotActive, s)) := by
  constructor
  · intro hst
    rw [disburse_success_eq s auths id a p hadmin hauth hp hst]
    refine ⟨rfl, by simp, ?_, rfl⟩
    intro hle t
    dsimp only
    rcases lt_or_eq_of_le hle with h1 | h1
    · simp [h1]
    · simp [← h1]
  · intro hst
    exact disburse_not_created s auths id a p hadmin hauth hp hst

theorem disburse_spec_witness :
    (disburse demoS3 demoAuths 7).1 = Except.ok () :=
  ((disburse_spec demoS3 demoAuths 7 1 demoPkg7 rfl rfl rfl).1 rfl).1

/-- C7: in every reachable state — that is, after every sequence of
public operations from deployment, each ending successfully or with an
error — the locked-funds total of every asset is non-negative; the
saturating decrement never drives it below zero. -/
theorem reachable_locked_nonneg (s : State) (h : Reachable s) :
    ∀ t, 0 ≤ s.locked t := by
  obtain ⟨b0, hr⟩ := h
  induction hr with
  | refl => intro t; exact le_refl 0
  | tail _ hstep ih => exact step_locked_nonneg _ _ hstep ih

theorem reachable_locked_nonneg_witness : 0 ≤ demoS5.locked 5 :=
  reachable_locked_nonneg demoS5 reachable_demoS5 5

/-- C8: get_package returns the state unchanged — it performs no writes,
in particular no auto-expiry — and its result is PackageNotFound exactly
when no package with the id exists, the stored record (whatever its
status or expiry) otherwise. -/
theorem get_package_readonly (s : State) (id : Nat) :
    (get_package s id).2 = s ∧
    ((get_package s id).1 = Except.error Error.PackageNotFound ↔
      s.packages id = none) ∧
    (∀ p, s.packages id = some p → (get_package s id).1 = Except.ok p) := by
  refine ⟨get_package_snd s id, ?_, ?_⟩
  · rw [get_package_fst]
    rcases hq : s.packages id with _ | q <;> simp
  · intro p hp
    rw [get_package_fst, hp]

theorem get_package_readonly_witness :
    (get_package demoSW 9).1 = Except.ok pkgW :=
  (get_package_readonly demoSW 9).2.2 pkgW rfl

/-- C9: expiry is strict at the boundary: when the current time equals a
Created package's non-zero expires_at, claim by the authorized recipient
still succeeds, and refund by the authorized administrator fails with
InvalidState — only strictly-later timestamps trigger expiry. -/
theorem expiry_boundary_strict (s : State) (auths : Addr → Bool)
    (id : Nat) (a : Addr) (p : Package) (hadmin : s.admin = some a)
    (hauth : auths a = true) (hp : s.packages id = some p)
    (hst : p.status = PackageStatus.Created) (hex : p.expires_at ≠ 0)
    (hrec : auths p.recipient = true) :
    (claim s auths p.expires_at id).1 = Except.ok () ∧
    (refund s auths p.expires_at id).1 =
      Except.error Error.InvalidState := by
  have hnot : ¬(0 < p.expires_at ∧ p.expires_at < p.expires_at) := by
    intro h
    exact lt_irrefl _ h.2
  constructor
  · rw [claim_success_eq s auths p.expires_at id p hp hst hnot hrec]
  · rw [refund_created_not_past s auths p.expires_at id a p hadmin hauth
      hp hst hnot]

theorem expiry_boundary_strict_witness :
    (claim demoS3 demoAuths 50 7).1 = Except.ok () ∧
    (refund demoS3 demoAuths 50 7).1 =
      Except.error Error.InvalidState :=
  expiry_boundary_strict demoS3 demoAuths 7 1 demoPkg7 rfl rfl rfl rfl
    (by decide) rfl

/-- C10: a successful disburse pays the package's recipient, not the
administrator who invoked it: in the post-state the recipient's balance
in the package's token has grown by the amount, the custodial balance
has shrunk by it, and every other account — the administrator included
whenever distinct from the recipient and the contract — is unchanged. -/
theorem disburse_pays_recipient (s : State) (auths : Addr → Bool)
    (id : Nat) (a : Addr) (p : Package) (hadmin : s.admin = some a)
    (hauth : auths a = true) (hp : s.packages id = some p)
    (hst : p.status = PackageStatus.Created)
    (hrec : p.recipient ≠ contractAddr) :
    (disburse s auths id).1 = Except.ok () ∧
    (disburse s auths id).2.balance p.token p.recipient =
      s.balance p.token p.recipient + p.amount ∧
    (disburse s auths id).2.balance p.token contractAddr =
      s.balance p.token contractAddr - p.amount ∧
    (∀ b, b ≠ p.recipient → b ≠ contractAddr →
      (disburse s auths id).2.balance p.token b = s.balance p.token b) := by
  rw [disburse_success_eq s auths id a p hadmin hauth hp hst]
  refine ⟨rfl, ?_, ?_, ?_⟩
  · dsimp only
    simp [transfer, hrec]
  · dsimp only
    simp [transfer, Ne.symm hrec]
  · intro b hb1 hb2
    dsimp only
    simp [transfer, hb1, hb2]

theorem disburse_pays_recipient_witness :
    (disburse demoS3 demoAuths 7).2.balance 5 3 =
      demoS3.balance 5 3 + 100 :=
  (disburse_pays_recipient demoS3 demoAuths 7 1 demoPkg7 rfl rfl rfl rfl
    (by decide)).2.1

end Soter
